import Mathlib

/-!
Shallow embedding of the video-processing service in src/app.py.

The handler process_video_endpoint (src/app.py lines 97-239) is a
sequential pipeline of external effects: download the input video, run
three external commands (ns-process-data, ns-train, ns-export), locate
the latest training directory, upload the resulting PLY file, write the
job status to Firestore, and remove the per-job temporary directory.

Every external effect is modelled by an oracle record Env that fixes the
outcome of each call site (exit statuses of the three subprocess.run
invocations, the directory listing seen by os.listdir, existence checks,
success or failure of the network and filesystem calls).  The handler
itself is translated statement by statement into a pure function from
Env and the parsed request to the HTTP response together with a trace
PipeSt recording which effects were invoked, every Firestore status
write attempted, and whether the job directory still exists on return.
-/

namespace NerfProc

/-- Terminal job status values written by update_firestore
(src/app.py lines 203, 217, 228). -/
inductive Status where
  | complete
  | failed
  deriving DecidableEq, Repr

/-- Python exception classes that can cross the inner try of
process_video_endpoint, by handler-relevant class:
subprocess.CalledProcessError (caught at line 212) versus everything
else (caught at line 224).  calledProcess carries the returncode and the
stderr attribute of the exception object; fileNotFound models
FileNotFoundError, osError models OSError from shutil.rmtree, transfer
models storage-client failures, persistence models Firestore failures. -/
inductive PyError where
  | calledProcess (returncode : Int) (capturedStderr : Option String)
  | fileNotFound (msg : String)
  | osError (msg : String)
  | transfer (msg : String)
  | persistence (msg : String)
  deriving DecidableEq, Repr

/-- Body tag of the JSON responses returned by the two endpoints. -/
inductive RespTag where
  | healthy (firebase_initialized : Bool)
  | notInitialized
  | badRequest
  | success (splatUrl : String)
  | nerfstudioFailed
  | internalError
  | requestError
  deriving DecidableEq, Repr

/-- An HTTP response: status code plus which jsonify body was returned. -/
structure Response where
  code : Nat
  tag : RespTag
  deriving DecidableEq, Repr

/-- One entry of os.listdir(splatfacto_output_dir) together with the
result of the os.path.isdir test applied to it (src/app.py line 166). -/
structure DirEntry where
  name : String
  isDir : Bool
  deriving DecidableEq, Repr

/-- Oracle fixing the outcome of every external call the handler makes.
Exit statuses are the integer returncodes of the three subprocess.run
calls; the stderr fields record what each external tool writes to its
standard-error stream (which src/app.py inherits rather than captures,
since subprocess.run is called without capture_output or stderr
arguments).  rmtreeOk gives the outcome of the n-th shutil.rmtree call
made during one request, counting from 0. -/
structure Env where
  dbInit : Bool
  bucketInit : Bool
  jobDirAlreadyExists : Bool
  downloadOk : Bool
  processExit : Int
  processStderr : String
  trainExit : Int
  trainStderr : String
  splatfactoDirExists : Bool
  splatfactoEntries : List DirEntry
  configExists : Bool
  exportExit : Int
  exportStderr : String
  plyExists : Bool
  uploadOk : Bool
  publicUrl : String
  writeCompleteOk : Bool
  writeFailedOk : Bool
  rmtreeOk : Nat → Bool

/-- Trace of one request: every update_firestore attempt in order (with
whether the write itself succeeded), whether the job directory was
created and whether it still exists, how many shutil.rmtree calls were
made, which pipeline effects were invoked, which exception the inner
except blocks handled, and the stderr value printed at line 215. -/
structure PipeSt where
  writes : List (Status × Bool)
  wsCreated : Bool
  wsExists : Bool
  rmtreeCalls : Nat
  downloadInvoked : Bool
  processInvoked : Bool
  trainInvoked : Bool
  exportInvoked : Bool
  uploadInvoked : Bool
  handledError : Option PyError
  loggedStderr : Option (Option String)
  deriving DecidableEq, Repr

/-- Trace state before any effect has run. -/
def PipeSt.init : PipeSt :=
  { writes := []
    wsCreated := false
    wsExists := false
    rmtreeCalls := 0
    downloadInvoked := false
    processInvoked := false
    trainInvoked := false
    exportInvoked := false
    uploadInvoked := false
    handledError := none
    loggedStderr := none }

/-- Trace state right after os.makedirs(job_dir, exist_ok=True) at
src/app.py line 121: the job directory exists. -/
def startSt : PipeSt :=
  { PipeSt.init with wsCreated := true, wsExists := true }

/-- Result of parsing the request body: request.get_json() either raises
(malformed body, handled by the outer except at line 236) or yields data
whose truthiness and two required keys are tested at line 110. -/
inductive ReqJson where
  | raised
  | parsed (truthy hasVideoStoragePath hasFirestoreDocId : Bool)
  deriving DecidableEq, Repr

/-- os.makedirs semantics at the call site of src/app.py line 121: with
exist_ok set, an existing directory is not an error; without it, an
existing directory raises FileExistsError (an OSError). -/
def makedirs (alreadyExists : Bool) (exist_ok : Bool) : Except PyError Unit :=
  if alreadyExists && !exist_ok then .error (.osError "FileExistsError") else .ok ()

/-- Names of the immediate subdirectories of splatfacto_output_dir, in
listing order: the list comprehension of src/app.py line 166 keeps the
entries passing os.path.isdir. -/
def dirNames (entries : List DirEntry) : List String :=
  (entries.filter (fun e => e.isDir)).map (fun e => e.name)

/-- The config.yml search of src/app.py lines 164-169: if the splatfacto
output directory is missing, os.listdir raises (modelled as none);
otherwise the subdirectory names are sorted ascending in place
(training_dirs.sort()) and the last one is taken, where indexing an
empty list raises IndexError (modelled as none). -/
def findLatestTrainingDir (dirExists : Bool) (entries : List DirEntry) : Option String :=
  if dirExists then
    ((dirNames entries).mergeSort (fun a b => decide (a ≤ b))).getLast?
  else
    none

/-- The inner try of src/app.py lines 128-209, translated statement by
statement.  Each effect consults Env; a Python raise is an error result
carrying the exception; the trace records invocations, the Firestore
write attempts (line 203 appends its attempt before the outcome is
tested, because the attempt happens regardless), and rmtree calls.

The subprocess.run calls at lines 148, 160 and 185 pass check=True but
neither capture_output nor a stderr argument, so the CalledProcessError
they raise has stderr = None: the errors below are built with none even
though Env records what each tool wrote to its inherited stream. -/
def pipelineBody (env : Env) (s : PipeSt) : Except PyError String × PipeSt :=
  -- line 132: download_video(video_storage_path, local_video_path)
  let s := { s with downloadInvoked := true }
  if env.downloadOk = false then (.error (.transfer "download_video failed"), s) else
  -- line 148: subprocess.run(process_cmd, check=True)
  let s := { s with processInvoked := true }
  if env.processExit = 0 then
    -- line 160: subprocess.run(train_cmd, check=True)
    let s := { s with trainInvoked := true }
    if env.trainExit = 0 then
      -- lines 164-173: find config.yml; every failure inside the inner
      -- try (missing dir, no subdirectory, missing config.yml) is
      -- caught at line 171 and re-raised as FileNotFoundError
      match findLatestTrainingDir env.splatfactoDirExists env.splatfactoEntries with
      | none => (.error (.fileNotFound "Could not find config.yml"), s)
      | some _latest =>
        if env.configExists = false then
          (.error (.fileNotFound "Could not find config.yml"), s)
        else
          -- line 185: subprocess.run(export_cmd, check=True)
          let s := { s with exportInvoked := true }
          if env.exportExit = 0 then
            -- lines 188-189: artifact existence check before upload
            if env.plyExists = false then
              (.error (.fileNotFound "Output PLY file not found after export"), s)
            else
              -- line 199: upload_splat(ply_output_path, splat_storage_path)
              let s := { s with uploadInvoked := true }
              if env.uploadOk = false then (.error (.transfer "upload_splat failed"), s) else
              -- line 203: update_firestore(doc_id, complete, public_url)
              let s := { s with writes := s.writes ++ [(Status.complete, env.writeCompleteOk)] }
              if env.writeCompleteOk = false then
                (.error (.persistence "firestore update failed"), s)
              else
                -- line 207: shutil.rmtree(job_dir) on the success path
                if env.rmtreeOk s.rmtreeCalls then
                  (.ok env.publicUrl,
                    { s with wsExists := false, rmtreeCalls := s.rmtreeCalls + 1 })
                else
                  (.error (.osError "rmtree failed"),
                    { s with rmtreeCalls := s.rmtreeCalls + 1 })
          else
            (.error (.calledProcess env.exportExit none), s)
    else
      (.error (.calledProcess env.trainExit none), s)
  else
    (.error (.calledProcess env.processExit none), s)

/-- Which jsonify body the two inner except blocks return: line 222 for
CalledProcessError, line 233 for every other exception. -/
def respTagFor : PyError → RespTag
  | .calledProcess _ _ => .nerfstudioFailed
  | _ => .internalError

/-- The two inner except blocks of src/app.py lines 212-233.  Both log
the exception (recorded in handledError; the CalledProcessError branch
additionally prints e.stderr at line 215, recorded in loggedStderr),
both attempt a best-effort update_firestore(doc_id, failed) whose own
failure is only logged (lines 216-219 and 227-230), and both then run
shutil.rmtree guarded by os.path.exists (lines 221 and 232).  That
rmtree call is not wrapped in a try, so if it raises, the exception
propagates to the outer except at line 236, which returns the generic
request-error response. -/
def handleBodyError (env : Env) (e : PyError) (s : PipeSt) : Response × PipeSt :=
  let s := { s with handledError := some e }
  let s :=
    match e with
    | .calledProcess _ stderrAttr => { s with loggedStderr := some stderrAttr }
    | _ => s
  let s := { s with writes := s.writes ++ [(Status.failed, env.writeFailedOk)] }
  if s.wsExists then
    if env.rmtreeOk s.rmtreeCalls then
      ({ code := 500, tag := respTagFor e },
        { s with wsExists := false, rmtreeCalls := s.rmtreeCalls + 1 })
    else
      ({ code := 500, tag := .requestError },
        { s with rmtreeCalls := s.rmtreeCalls + 1 })
  else
    ({ code := 500, tag := respTagFor e }, s)

/-- The POST handler process_video_endpoint of src/app.py lines 97-239:
the Firebase-initialization gate at lines 103-106 (HTTP 503), the outer
try whose except at line 236 returns HTTP 500 for request-handling
failures, the payload validation at lines 110-111 (HTTP 400), the job
directory creation at line 121, then the inner try of pipelineBody and
its two except blocks. -/
def process_video_endpoint (env : Env) (req : ReqJson) : Response × PipeSt :=
  if (env.dbInit && env.bucketInit) = false then
    ({ code := 503, tag := .notInitialized }, PipeSt.init)
  else
    match req with
    | .raised => ({ code := 500, tag := .requestError }, PipeSt.init)
    | .parsed truthy hasPath hasDocId =>
      if (truthy && hasPath && hasDocId) = false then
        ({ code := 400, tag := .badRequest }, PipeSt.init)
      else
        match makedirs env.jobDirAlreadyExists true with
        | .error _ => ({ code := 500, tag := .requestError }, PipeSt.init)
        | .ok _ =>
          match pipelineBody env startSt with
          | (.ok url, s1) => ({ code := 200, tag := .success url }, s1)
          | (.error e, s1) => handleBodyError env e s1

/-- The GET health-check endpoint of src/app.py lines 92-95. -/
def health_check (env : Env) : Response :=
  { code := 200, tag := .healthy (env.dbInit && env.bucketInit) }

/-- A request body that passes the validation at src/app.py line 110:
json parsed to truthy data containing both required keys. -/
def validReq : ReqJson := .parsed true true true

/-- A write trace is monotone when nothing follows a successfully
recorded terminal write. -/
def monotoneWrites (l : List (Status × Bool)) : Prop :=
  ∀ pre a post, l = pre ++ a :: post → a.2 = true → post = []

/-- The Env field constraints under which the pipeline reaches the
success-path shutil.rmtree of src/app.py line 207: every stage exits
zero, the splatfacto output directory has at least one subdirectory,
config.yml and the PLY file exist, and the upload and the complete
status write succeed. -/
def reachesSuccessCleanup (env : Env) : Prop :=
  env.downloadOk = true ∧ env.processExit = 0 ∧ env.trainExit = 0 ∧
  env.splatfactoDirExists = true ∧ dirNames env.splatfactoEntries ≠ [] ∧
  env.configExists = true ∧ env.exportExit = 0 ∧ env.plyExists = true ∧
  env.uploadOk = true ∧ env.writeCompleteOk = true

/-- An environment in which every external effect succeeds: all stages
exit zero, the splatfacto output directory holds one training run, all
files exist, uploads and Firestore writes succeed, rmtree succeeds. -/
def envAllOk : Env :=
  { dbInit := true
    bucketInit := true
    jobDirAlreadyExists := false
    downloadOk := true
    processExit := 0
    processStderr := ""
    trainExit := 0
    trainStderr := ""
    splatfactoDirExists := true
    splatfactoEntries := [{ name := "2024-05-01_120000", isDir := true }]
    configExists := true
    exportExit := 0
    exportStderr := ""
    plyExists := true
    uploadOk := true
    publicUrl := "https://storage.example/splat.ply"
    writeCompleteOk := true
    writeFailedOk := true
    rmtreeOk := fun _ => true }

/-- As envAllOk, but every shutil.rmtree call fails. -/
def envRmtreeFails : Env := { envAllOk with rmtreeOk := fun _ => false }

/-- As envAllOk, but the update_firestore call that records the complete
status itself raises. -/
def envCompleteWriteFails : Env := { envAllOk with writeCompleteOk := false }

/-- As envAllOk, but ns-process-data exits 1 after writing diagnostics
to its (inherited, uncaptured) standard-error stream. -/
def envProcessFails : Env :=
  { envAllOk with processExit := 1, processStderr := "ffmpeg not found" }

/-- As envAllOk, but the splatfacto output directory was never created
by ns-train, although the stage exited zero. -/
def envNoTrainingDirs : Env := { envAllOk with splatfactoDirExists := false }

/-- As envAllOk, but ns-export exits zero without producing splat.ply. -/
def envPlyMissing : Env := { envAllOk with plyExists := false }

/-- A splatfacto output listing holding one stray file and one training
run directory. -/
def sampleEntries : List DirEntry :=
  [{ name := "dataparser_transforms.json", isDir := false },
   { name := "2024-05-01_120000", isDir := true }]

/-- As envProcessFails, but additionally every shutil.rmtree call
fails: a failure-path environment whose except-block cleanup raises. -/
def envProcessAndCleanupFail : Env :=
  { envProcessFails with rmtreeOk := fun _ => false }

/-- The trace that the inner try leaves behind when ns-process-data
fails on the first stage: only the download and the first stage ran. -/
def stProcessFailed : PipeSt :=
  { startSt with downloadInvoked := true, processInvoked := true }

/-! Structural lemmas about the pipeline body and the except blocks. -/

/-- When the config.yml search succeeds, the splatfacto output directory
existed and held at least one subdirectory. -/
theorem findLatest_some_elim {de : Bool} {entries : List DirEntry} {d : String}
    (h : findLatestTrainingDir de entries = some d) :
    de = true ∧ dirNames entries ≠ [] := by
  cases de
  · simp [findLatestTrainingDir] at h
  · refine ⟨rfl, fun h0 => ?_⟩
    simp [findLatestTrainingDir, h0] at h

/-- Whatever Env drives it, the inner try started from startSt either
returns ok with exactly the complete write attempted (successfully) and
the job directory already removed, or returns an error with the job
directory still present and a write trace that is empty or consists of
the single complete attempt, the latter only when that attempt itself
failed, or when the whole pipeline had succeeded and the success-path
rmtree of line 207 failed. -/
theorem pipelineBody_spec (env : Env) :
    (∃ u s, pipelineBody env startSt = (Except.ok u, s) ∧
      s.writes = [(Status.complete, true)] ∧ s.wsExists = false ∧ s.wsCreated = true)
  ∨ (∃ e s, pipelineBody env startSt = (Except.error e, s) ∧
      s.wsExists = true ∧ s.wsCreated = true ∧
      (s.writes = [] ∨ (s.writes = [(Status.complete, env.writeCompleteOk)] ∧
        (env.writeCompleteOk = false ∨
          (env.rmtreeOk 0 = false ∧ reachesSuccessCleanup env))))) := by
  cases h1 : env.downloadOk
  · right
    simp [pipelineBody, h1, startSt, PipeSt.init]
    exact ⟨_, _, ⟨rfl, rfl⟩, rfl, rfl, Or.inl rfl⟩
  by_cases h2 : env.processExit = 0
  swap
  · right
    simp [pipelineBody, h1, h2, startSt, PipeSt.init]
    exact ⟨_, _, ⟨rfl, rfl⟩, rfl, rfl, Or.inl rfl⟩
  by_cases h3 : env.trainExit = 0
  swap
  · right
    simp [pipelineBody, h1, h2, h3, startSt, PipeSt.init]
    exact ⟨_, _, ⟨rfl, rfl⟩, rfl, rfl, Or.inl rfl⟩
  rcases hfind : findLatestTrainingDir env.splatfactoDirExists env.splatfactoEntries with _ | d
  · right
    simp [pipelineBody, h1, h2, h3, hfind, startSt, PipeSt.init]
    exact ⟨_, _, ⟨rfl, rfl⟩, rfl, rfl, Or.inl rfl⟩
  cases h5 : env.configExists
  · right
    simp [pipelineBody, h1, h2, h3, hfind, h5, startSt, PipeSt.init]
    exact ⟨_, _, ⟨rfl, rfl⟩, rfl, rfl, Or.inl rfl⟩
  by_cases h6 : env.exportExit = 0
  swap
  · right
    simp [pipelineBody, h1, h2, h3, hfind, h5, h6, startSt, PipeSt.init]
    exact ⟨_, _, ⟨rfl, rfl⟩, rfl, rfl, Or.inl rfl⟩
  cases h7 : env.plyExists
  · right
    simp [pipelineBody, h1, h2, h3, hfind, h5, h6, h7, startSt, PipeSt.init]
    exact ⟨_, _, ⟨rfl, rfl⟩, rfl, rfl, Or.inl rfl⟩
  cases h8 : env.uploadOk
  · right
    simp [pipelineBody, h1, h2, h3, hfind, h5, h6, h7, h8, startSt, PipeSt.init]
    exact ⟨_, _, ⟨rfl, rfl⟩, rfl, rfl, Or.inl rfl⟩
  cases h9 : env.writeCompleteOk
  · right
    simp [pipelineBody, h1, h2, h3, hfind, h5, h6, h7, h8, h9, startSt, PipeSt.init]
    exact ⟨_, _, ⟨rfl, rfl⟩, rfl, rfl, Or.inr rfl⟩
  cases h10 : env.rmtreeOk 0
  · right
    obtain ⟨hde, hdn⟩ := findLatest_some_elim hfind
    have hrsc : reachesSuccessCleanup env :=
      ⟨h1, h2, h3, hde, hdn, h5, h6, h7, h8, h9⟩
    simp [pipelineBody, h1, h2, h3, hfind, h5, h6, h7, h8, h9, h10, startSt, PipeSt.init]
    exact ⟨_, _, ⟨rfl, rfl⟩, rfl, rfl, Or.inr ⟨rfl, hrsc⟩⟩
  · left
    simp [pipelineBody, h1, h2, h3, hfind, h5, h6, h7, h8, h9, h10, startSt, PipeSt.init]
    exact ⟨_, _, ⟨rfl, rfl⟩, rfl, rfl, rfl⟩

/-- The two except blocks always append exactly one failed-status write
attempt, never change which effects were invoked, record the handled
exception, return HTTP 500, and remove the job directory whenever it
exists and the rmtree call they make succeeds; when that rmtree call
succeeds the response carries the class-specific body of line 222 or
233, and when it fails the exception escapes to the outer handler of
line 236 whose generic request-error body replaces it. -/
theorem handleBodyError_spec (env : Env) (e : PyError) (s : PipeSt) :
    (handleBodyError env e s).2.writes = s.writes ++ [(Status.failed, env.writeFailedOk)] ∧
    (handleBodyError env e s).2.wsCreated = s.wsCreated ∧
    (handleBodyError env e s).2.handledError = some e ∧
    (handleBodyError env e s).2.trainInvoked = s.trainInvoked ∧
    (handleBodyError env e s).2.exportInvoked = s.exportInvoked ∧
    (handleBodyError env e s).2.uploadInvoked = s.uploadInvoked ∧
    (handleBodyError env e s).1.code = 500 ∧
    (s.wsExists = true → env.rmtreeOk s.rmtreeCalls = true →
      (handleBodyError env e s).2.wsExists = false) ∧
    (s.wsExists = true → env.rmtreeOk s.rmtreeCalls = true →
      (handleBodyError env e s).1 = { code := 500, tag := respTagFor e }) ∧
    (s.wsExists = true → env.rmtreeOk s.rmtreeCalls = false →
      (handleBodyError env e s).1 = { code := 500, tag := RespTag.requestError }) := by
  cases e <;> simp [handleBodyError, respTagFor] <;> split_ifs <;> simp_all

/-- After any recorded entry of a one-element trace nothing follows. -/
theorem monotoneWrites_singleton (a : Status × Bool) : monotoneWrites [a] := by
  intro pre b post h _
  cases pre with
  | nil =>
    rw [List.nil_append] at h
    exact (List.cons.injEq _ _ _ _ ▸ h).2.symm
  | cons x pre =>
    rw [List.cons_append] at h
    have h2 := (List.cons.injEq _ _ _ _ ▸ h).2
    exact absurd h2.symm (by simp)

/-- A two-element trace whose first entry is an unrecorded write attempt
is monotone. -/
theorem monotoneWrites_pair (a b : Status × Bool) (ha : a.2 = false) :
    monotoneWrites [a, b] := by
  intro pre c post h hc
  cases pre with
  | nil =>
    rw [List.nil_append] at h
    have h1 := List.cons.injEq _ _ _ _ ▸ h
    rw [← h1.1] at hc
    rw [ha] at hc
    cases hc
  | cons x pre =>
    rw [List.cons_append] at h
    have h2 := (List.cons.injEq _ _ _ _ ▸ h).2
    cases pre with
    | nil =>
      rw [List.nil_append] at h2
      exact (List.cons.injEq _ _ _ _ ▸ h2).2.symm
    | cons y pre =>
      rw [List.cons_append] at h2
      have h3 := (List.cons.injEq _ _ _ _ ▸ h2).2
      exact absurd h3.symm (by simp)

/-- In a list sorted by a pairwise relation, every member is the last
element or is related to it. -/
theorem mem_rel_getLast_of_pairwise {α : Type} {R : α → α → Prop} :
    ∀ (l : List α) (hl : l ≠ []) (hp : l.Pairwise R) (x : α), x ∈ l →
      x = l.getLast hl ∨ R x (l.getLast hl) := by
  intro l
  induction l with
  | nil => intro hl; exact absurd rfl hl
  | cons a t ih =>
    intro hl hp x hx
    cases t with
    | nil =>
      rw [List.mem_singleton] at hx
      subst hx
      left
      rfl
    | cons b t2 =>
      have hne : b :: t2 ≠ [] := by simp
      rw [List.getLast_cons hne]
      rcases List.mem_cons.mp hx with rfl | hx2
      · right
        exact (List.pairwise_cons.mp hp).1 _ (List.getLast_mem hne)
      · exact ih hne (List.pairwise_cons.mp hp).2 x hx2

/-- The comparison passed to mergeSort at the model of line 167 is
transitive. -/
theorem stringLe_trans :
    ∀ a b c : String, decide (a ≤ b) = true → decide (b ≤ c) = true →
      decide (a ≤ c) = true := by
  intro a b c hab hbc
  rw [decide_eq_true_iff] at *
  exact le_trans hab hbc

/-- The comparison passed to mergeSort at the model of line 167 is
total. -/
theorem stringLe_total :
    ∀ a b : String, (decide (a ≤ b) || decide (b ≤ a)) = true := by
  intro a b
  rcases le_total a b with h | h <;> simp [h]

/-- Sorting a nonempty list and taking the last element yields a member
that every element is below. -/
theorem mergeSort_getLast_is_max (l : List String) (h : l ≠ []) :
    ∃ m, (l.mergeSort (fun a b => decide (a ≤ b))).getLast? = some m ∧
      m ∈ l ∧ ∀ d ∈ l, d ≤ m := by
  have hperm : (l.mergeSort (fun a b => decide (a ≤ b))).Perm l :=
    List.mergeSort_perm l _
  have hne : l.mergeSort (fun a b => decide (a ≤ b)) ≠ [] := by
    intro h0
    rw [h0] at hperm
    exact h hperm.symm.eq_nil
  have hsorted :
      (l.mergeSort (fun a b => decide (a ≤ b))).Pairwise
        (fun a b => decide (a ≤ b) = true) :=
    List.sorted_mergeSort stringLe_trans stringLe_total l
  refine ⟨(l.mergeSort (fun a b => decide (a ≤ b))).getLast hne,
    List.getLast?_eq_getLast _ hne, hperm.mem_iff.mp (List.getLast_mem hne), ?_⟩
  intro d hd
  rcases mem_rel_getLast_of_pairwise _ hne hsorted d (hperm.mem_iff.mpr hd) with h1 | h2
  · rw [h1]
  · exact decide_eq_true_iff.mp h2

/-- When the splatfacto output directory exists and holds at least one
subdirectory, the config.yml search of lines 164-169 resolves one. -/
theorem findLatest_some_of_dirs (env : Env)
    (h4 : env.splatfactoDirExists = true)
    (h5 : dirNames env.splatfactoEntries ≠ []) :
    ∃ m, findLatestTrainingDir env.splatfactoDirExists env.splatfactoEntries = some m := by
  obtain ⟨m, hm, _⟩ := mergeSort_getLast_is_max (dirNames env.splatfactoEntries) h5
  refine ⟨m, ?_⟩
  simp only [findLatestTrainingDir, h4, if_true]
  exact hm

/-- For an initialized service and a valid request whose inner try
returns ok, the handler returns the HTTP 200 success response and the
trace of the inner try. -/
theorem endpoint_eq_of_body_ok (env : Env)
    (hdb : env.dbInit = true) (hbk : env.bucketInit = true)
    {u : String} {s : PipeSt} (hb : pipelineBody env startSt = (Except.ok u, s)) :
    process_video_endpoint env validReq =
      ({ code := 200, tag := RespTag.success u }, s) := by
  simp [process_video_endpoint, validReq, hdb, hbk, makedirs, hb]

/-- For an initialized service and a valid request whose inner try
raises, the handler runs the matching except block on the raised
exception and the trace of the inner try. -/
theorem endpoint_eq_of_body_error (env : Env)
    (hdb : env.dbInit = true) (hbk : env.bucketInit = true)
    {e : PyError} {s : PipeSt} (hb : pipelineBody env startSt = (Except.error e, s)) :
    process_video_endpoint env validReq = handleBodyError env e s := by
  simp [process_video_endpoint, validReq, hdb, hbk, makedirs, hb]

/-- Whenever the inner try raises, the job directory still exists when
the except block starts. -/
theorem body_error_wsExists (env : Env) {e : PyError} {s : PipeSt}
    (heq : pipelineBody env startSt = (Except.error e, s)) : s.wsExists = true := by
  rcases pipelineBody_spec env with
    ⟨u, s', heq', _⟩ | ⟨e', s', heq', hws, _, _⟩
  · rw [heq] at heq'
    simp at heq'
  · rw [heq] at heq'
    injection heq' with _ hb
    rw [hb]
    exact hws

/-- C1 (amended): for every valid job request reaching workspace
creation, at least one and at most two terminal status writes are
attempted, in one of the orders complete, failed, or complete-then-
failed; and the workspace directory does not exist after the handler
returns provided every shutil.rmtree call made succeeds.  (A second
write, and a surviving workspace, occur exactly on the paths the
counterexample exhibits: the complete write or a cleanup removal
raising.) -/
theorem c1_terminal_writes_and_cleanup (env : Env)
    (hdb : env.dbInit = true) (hbk : env.bucketInit = true) :
    ((process_video_endpoint env validReq).2.writes.map Prod.fst = [Status.complete] ∨
     (process_video_endpoint env validReq).2.writes.map Prod.fst = [Status.failed] ∨
     (process_video_endpoint env validReq).2.writes.map Prod.fst =
       [Status.complete, Status.failed]) ∧
    ((∀ n, env.rmtreeOk n = true) →
      (process_video_endpoint env validReq).2.wsExists = false) := by
  rcases pipelineBody_spec env with
    ⟨u, s, heq, hw, hws, _⟩ | ⟨e, s, heq, hws, _, hwrites⟩
  · rw [endpoint_eq_of_body_ok env hdb hbk heq]
    exact ⟨Or.inl (by rw [hw]; rfl), fun _ => hws⟩
  · rw [endpoint_eq_of_body_error env hdb hbk heq]
    obtain ⟨hhw, _, _, _, _, _, _, hhws, _, _⟩ := handleBodyError_spec env e s
    constructor
    · rcases hwrites with hnil | ⟨hone, _⟩
      · right; left
        rw [hhw, hnil]
        rfl
      · right; right
        rw [hhw, hone]
        rfl
    · intro hall
      exact hhws hws (hall s.rmtreeCalls)

/-- C1 counterexample: with every effect succeeding except the Firestore
complete write (which raises), the handler attempts two terminal status
writes for one valid job, not exactly one: the failed complete attempt
at line 203 and then the failed-status attempt of the except block at
line 228. -/
theorem c1_counterexample :
    (process_video_endpoint envCompleteWriteFails validReq).2.writes.map Prod.fst =
      [Status.complete, Status.failed] ∧
    (process_video_endpoint envCompleteWriteFails validReq).2.writes.length ≠ 1 := by
  have h : (process_video_endpoint envCompleteWriteFails validReq).2.writes =
      [(Status.complete, false), (Status.failed, true)] := by
    simp [process_video_endpoint, validReq, makedirs, envCompleteWriteFails, envAllOk,
      pipelineBody, handleBodyError, startSt, PipeSt.init, findLatestTrainingDir, dirNames]
  rw [h]
  exact ⟨rfl, by simp⟩

/-- C1 witness: instantiating the amended theorem at the all-success
environment: one complete write is attempted and the workspace is gone
on return. -/
theorem c1_witness :
    ((process_video_endpoint envAllOk validReq).2.writes.map Prod.fst = [Status.complete] ∨
     (process_video_endpoint envAllOk validReq).2.writes.map Prod.fst = [Status.failed] ∨
     (process_video_endpoint envAllOk validReq).2.writes.map Prod.fst =
       [Status.complete, Status.failed]) ∧
    (process_video_endpoint envAllOk validReq).2.wsExists = false :=
  ⟨(c1_terminal_writes_and_cleanup envAllOk rfl rfl).1,
   (c1_terminal_writes_and_cleanup envAllOk rfl rfl).2 (fun _ => rfl)⟩

/-- C2 (amended): for a valid job on an initialized service, provided
the success-path shutil.rmtree of line 207 does not raise whenever the
pipeline reaches it, job status is monotonic: once a terminal status
write is recorded, no further status write is attempted by the
invocation.  The proviso constrains only the line-207 removal: on
failure paths — including those whose except-block cleanup rmtree
(lines 221/232) itself fails — monotonicity holds unconditionally.
(When the line-207 call raises after the complete write was recorded,
one further failed write is attempted — the counterexample.) -/
theorem c2_status_monotonic (env : Env)
    (hdb : env.dbInit = true) (hbk : env.bucketInit = true)
    (hrm : reachesSuccessCleanup env → env.rmtreeOk 0 = true) :
    monotoneWrites (process_video_endpoint env validReq).2.writes := by
  rcases pipelineBody_spec env with
    ⟨u, s, heq, hw, _, _⟩ | ⟨e, s, heq, _, _, hwrites⟩
  · rw [endpoint_eq_of_body_ok env hdb hbk heq, hw]
    exact monotoneWrites_singleton _
  · rw [endpoint_eq_of_body_error env hdb hbk heq]
    obtain ⟨hhw, _⟩ := handleBodyError_spec env e s
    rw [hhw]
    rcases hwrites with hnil | ⟨hone, hcause⟩
    · rw [hnil]
      exact monotoneWrites_singleton _
    · rw [hone]
      rcases hcause with hwc | ⟨hrm0, hrsc⟩
      · exact monotoneWrites_pair _ _ hwc
      · rw [hrm hrsc] at hrm0
        cases hrm0

/-- C2 counterexample: with the complete write succeeding and every
shutil.rmtree call failing, the invocation records complete and then
attempts a further failed write — the trace is not monotone. -/
theorem c2_counterexample :
    envRmtreeFails.writeCompleteOk = true ∧
    (process_video_endpoint envRmtreeFails validReq).2.writes =
      [(Status.complete, true), (Status.failed, true)] ∧
    ¬ monotoneWrites (process_video_endpoint envRmtreeFails validReq).2.writes := by
  have h : (process_video_endpoint envRmtreeFails validReq).2.writes =
      [(Status.complete, true), (Status.failed, true)] := by
    simp [process_video_endpoint, validReq, makedirs, envRmtreeFails, envAllOk,
      pipelineBody, handleBodyError, startSt, PipeSt.init, findLatestTrainingDir, dirNames]
  refine ⟨rfl, h, ?_⟩
  intro hm
  have h3 := hm [] (Status.complete, true) [(Status.failed, true)] (by rw [h]; rfl) rfl
  simp at h3

/-- C2 witness: the amended theorem at a failure-path environment the
proviso does not constrain — ns-process-data fails and the except-block
cleanup rmtree also fails — so monotonicity holds there outright. -/
theorem c2_witness :
    (reachesSuccessCleanup envProcessAndCleanupFail →
      envProcessAndCleanupFail.rmtreeOk 0 = true) ∧
    monotoneWrites (process_video_endpoint envProcessAndCleanupFail validReq).2.writes :=
  ⟨fun h => absurd h.2.1 (by decide),
   c2_status_monotonic envProcessAndCleanupFail rfl rfl
     (fun h => absurd h.2.1 (by decide))⟩

/-- C3 (code bug): the subprocess.run calls pass neither capture_output
nor a stderr argument, so when a stage exits non-zero the raised
CalledProcessError carries stderr None, and line 215 logs None — even
when the external tool wrote non-empty diagnostics to its standard-error
stream.  At the failing input below, ns-process-data exits 1 after
writing to stderr, yet the surfaced error and the logged value carry no
captured stream. -/
theorem c3_stderr_not_captured :
    envProcessFails.processExit = 1 ∧
    envProcessFails.processStderr = "ffmpeg not found" ∧
    envProcessFails.processStderr ≠ "" ∧
    (process_video_endpoint envProcessFails validReq).2.handledError =
      some (PyError.calledProcess 1 none) ∧
    (process_video_endpoint envProcessFails validReq).2.loggedStderr = some none := by
  refine ⟨rfl, rfl, by decide, ?_, ?_⟩ <;>
    simp [process_video_endpoint, validReq, makedirs, envProcessFails, envAllOk,
      pipelineBody, handleBodyError, startSt, PipeSt.init]

/-- Helper: for an initialized service and a valid request, the handler
always reaches and performs workspace creation. -/
theorem endpoint_wsCreated (env : Env)
    (hdb : env.dbInit = true) (hbk : env.bucketInit = true) :
    (process_video_endpoint env validReq).2.wsCreated = true := by
  rcases pipelineBody_spec env with
    ⟨u, s, heq, _, _, hwc⟩ | ⟨e, s, heq, _, hwc, _⟩
  · rw [endpoint_eq_of_body_ok env hdb hbk heq]
    exact hwc
  · rw [endpoint_eq_of_body_error env hdb hbk heq]
    obtain ⟨_, hcr, _⟩ := handleBodyError_spec env e s
    rw [hcr]
    exact hwc

/-- C4 counterexample: os.makedirs at line 121 is called with
exist_ok=True, so when the directory named by the job identifier already
exists, workspace creation does not fail — it silently succeeds. -/
theorem c4_counterexample : ¬ ∃ e, makedirs true true = Except.error e := by
  rintro ⟨e, h⟩
  simp [makedirs] at h

/-- C4 (amended): workspace creation never fails on an identifier
collision: os.makedirs with exist_ok=True returns successfully whether
or not the directory already exists, silently reusing it, and the
handler proceeds to run the job in it. -/
theorem c4_collision_silently_reused (b : Bool) (env : Env) :
    makedirs b true = Except.ok () ∧
    (process_video_endpoint
      { env with dbInit := true, bucketInit := true, jobDirAlreadyExists := true }
      validReq).2.wsCreated = true :=
  ⟨by simp [makedirs], endpoint_wsCreated _ rfl rfl⟩

/-- C5 counterexample: the two runs below differ only in whether
shutil.rmtree succeeds, yet the returned outcome differs: with cleanup
succeeding the job returns HTTP 200, with cleanup failing the same job
returns HTTP 500 — the success-path rmtree of line 207 is inside the
inner try, so its failure replaces the original success outcome. -/
theorem c5_counterexample :
    envRmtreeFails = { envAllOk with rmtreeOk := fun _ => false } ∧
    (process_video_endpoint envAllOk validReq).1.code = 200 ∧
    (process_video_endpoint envRmtreeFails validReq).1.code = 500 := by
  refine ⟨rfl, ?_, ?_⟩ <;>
    simp [process_video_endpoint, validReq, makedirs, envRmtreeFails, envAllOk,
      pipelineBody, handleBodyError, startSt, PipeSt.init, findLatestTrainingDir, dirNames]

/-- C5 (amended): workspace destruction can raise, and a removal
failure is never masked into the original outcome.  Success path: when
the pipeline reaches the line-207 removal and it fails, a job that had
already recorded complete returns HTTP 500 instead of 200, after
attempting a further failed write.  Failure path: whenever the inner
try raises and the except block's cleanup rmtree succeeds the response
carries the class-specific error body, but when that rmtree fails the
exception escalates to the outer handler of line 236 and the generic
request-error response replaces the specific one.  The original outcome
is preserved only when removal succeeds. -/
theorem c5_cleanup_failure_changes_outcome (env : Env)
    (hdb : env.dbInit = true) (hbk : env.bucketInit = true) :
    (reachesSuccessCleanup env → env.rmtreeOk 0 = false →
      (process_video_endpoint env validReq).1.code = 500 ∧
      (process_video_endpoint env validReq).2.writes =
        [(Status.complete, true), (Status.failed, env.writeFailedOk)]) ∧
    (∀ e s, pipelineBody env startSt = (Except.error e, s) →
      env.rmtreeOk s.rmtreeCalls = true →
      (process_video_endpoint env validReq).1 =
        { code := 500, tag := respTagFor e }) ∧
    (∀ e s, pipelineBody env startSt = (Except.error e, s) →
      env.rmtreeOk s.rmtreeCalls = false →
      (process_video_endpoint env validReq).1 =
        { code := 500, tag := RespTag.requestError }) := by
  refine ⟨?_, ?_, ?_⟩
  · intro hrs hrm
    obtain ⟨h1, h2, h3, h4, h5, h6, h7, h8, h9, h10⟩ := hrs
    obtain ⟨m, hfind0⟩ := findLatest_some_of_dirs env h4 h5
    have hbody : (pipelineBody env startSt).1 =
        Except.error (PyError.osError "rmtree failed") ∧
        (pipelineBody env startSt).2.writes = [(Status.complete, true)] := by
      constructor <;>
        simp [pipelineBody, h1, h2, h3, hfind0, h6, h7, h8, h9, h10, hrm,
          startSt, PipeSt.init]
    have heq : pipelineBody env startSt =
        (Except.error (PyError.osError "rmtree failed"), (pipelineBody env startSt).2) :=
      Prod.ext hbody.1 rfl
    rw [endpoint_eq_of_body_error env hdb hbk heq]
    obtain ⟨hhw, _, _, _, _, _, hcode, _⟩ :=
      handleBodyError_spec env (PyError.osError "rmtree failed") (pipelineBody env startSt).2
    refine ⟨hcode, ?_⟩
    rw [hhw, hbody.2]
    rfl
  · intro e s heq hrm
    have hws := body_error_wsExists env heq
    rw [endpoint_eq_of_body_error env hdb hbk heq]
    obtain ⟨_, _, _, _, _, _, _, _, htag, _⟩ := handleBodyError_spec env e s
    exact htag hws hrm
  · intro e s heq hrm
    have hws := body_error_wsExists env heq
    rw [endpoint_eq_of_body_error env hdb hbk heq]
    obtain ⟨_, _, _, _, _, _, _, _, _, htag⟩ := handleBodyError_spec env e s
    exact htag hws hrm

/-- C5 witness: the success-path part at the environment where every
rmtree call fails, and the failure-path part at the environment where
ns-process-data fails and the except-block rmtree failure escalates to
the generic request-error response. -/
theorem c5_witness :
    reachesSuccessCleanup envRmtreeFails ∧ envRmtreeFails.rmtreeOk 0 = false ∧
    (process_video_endpoint envRmtreeFails validReq).1.code = 500 ∧
    (process_video_endpoint envRmtreeFails validReq).2.writes =
      [(Status.complete, true), (Status.failed, envRmtreeFails.writeFailedOk)] ∧
    pipelineBody envProcessAndCleanupFail startSt =
      (Except.error (PyError.calledProcess 1 none), stProcessFailed) ∧
    (process_video_endpoint envProcessAndCleanupFail validReq).1 =
      { code := 500, tag := RespTag.requestError } := by
  have hrs : reachesSuccessCleanup envRmtreeFails := by
    refine ⟨rfl, rfl, rfl, rfl, ?_, rfl, rfl, rfl, rfl, rfl⟩
    simp [dirNames, envRmtreeFails, envAllOk]
  have hbody : pipelineBody envProcessAndCleanupFail startSt =
      (Except.error (PyError.calledProcess 1 none), stProcessFailed) := by
    simp [pipelineBody, envProcessAndCleanupFail, envProcessFails, envAllOk,
      startSt, PipeSt.init, stProcessFailed]
  exact ⟨hrs, rfl,
    ((c5_cleanup_failure_changes_outcome envRmtreeFails rfl rfl).1 hrs rfl).1,
    ((c5_cleanup_failure_changes_outcome envRmtreeFails rfl rfl).1 hrs rfl).2,
    hbody,
    (c5_cleanup_failure_changes_outcome envProcessAndCleanupFail rfl rfl).2.2
      (PyError.calledProcess 1 none) stProcessFailed hbody rfl⟩

/-- C6 (confirmed): when ns-train exits zero but its declared output
parent directory is missing or holds zero subdirectories, the job fails
with the FileNotFoundError raised at line 173 — a different exception
class from the CalledProcessError of a stage exit-status failure — a
failed status write is attempted, and ns-export is never invoked. -/
theorem c6_empty_output_dir_fails_before_export (env : Env)
    (hdb : env.dbInit = true) (hbk : env.bucketInit = true)
    (h1 : env.downloadOk = true) (h2 : env.processExit = 0) (h3 : env.trainExit = 0)
    (hnone : env.splatfactoDirExists = false ∨ dirNames env.splatfactoEntries = []) :
    (process_video_endpoint env validReq).2.handledError =
      some (PyError.fileNotFound "Could not find config.yml") ∧
    (process_video_endpoint env validReq).2.exportInvoked = false ∧
    (process_video_endpoint env validReq).2.writes.map Prod.fst = [Status.failed] := by
  have hfind : findLatestTrainingDir env.splatfactoDirExists env.splatfactoEntries = none := by
    rcases hnone with h | h
    · simp [findLatestTrainingDir, h]
    · cases h4 : env.splatfactoDirExists
      · simp [findLatestTrainingDir]
      · simp [findLatestTrainingDir, h]
  have hbody :
      (pipelineBody env startSt).1 =
        Except.error (PyError.fileNotFound "Could not find config.yml") ∧
      (pipelineBody env startSt).2.writes = [] ∧
      (pipelineBody env startSt).2.exportInvoked = false := by
    refine ⟨?_, ?_, ?_⟩ <;> simp [pipelineBody, h1, h2, h3, hfind, startSt, PipeSt.init]
  have heq : pipelineBody env startSt =
      (Except.error (PyError.fileNotFound "Could not find config.yml"),
        (pipelineBody env startSt).2) :=
    Prod.ext hbody.1 rfl
  rw [endpoint_eq_of_body_error env hdb hbk heq]
  obtain ⟨hhw, _, hhe, _, hhx, _, _, _⟩ :=
    handleBodyError_spec env (PyError.fileNotFound "Could not find config.yml")
      (pipelineBody env startSt).2
  refine ⟨hhe, ?_, ?_⟩
  · rw [hhx]
    exact hbody.2.2
  · rw [hhw, hbody.2.1]
    rfl

/-- C6 witness: the theorem at the environment where ns-train exits zero
but never creates the splatfacto output directory. -/
theorem c6_witness :
    (envNoTrainingDirs.splatfactoDirExists = false ∨
      dirNames envNoTrainingDirs.splatfactoEntries = []) ∧
    (process_video_endpoint envNoTrainingDirs validReq).2.handledError =
      some (PyError.fileNotFound "Could not find config.yml") ∧
    (process_video_endpoint envNoTrainingDirs validReq).2.exportInvoked = false ∧
    (process_video_endpoint envNoTrainingDirs validReq).2.writes.map Prod.fst =
      [Status.failed] :=
  ⟨Or.inl rfl,
    c6_empty_output_dir_fails_before_export envNoTrainingDirs rfl rfl rfl rfl rfl
      (Or.inl rfl)⟩

/-- C7 (confirmed): for every existing parent directory, the selection
of lines 166-168 — list immediate subdirectories, sort ascending, take
the last — returns a subdirectory name that is lexicographically
greatest among the immediate subdirectories, whenever there is at least
one. -/
theorem c7_selects_lexicographically_greatest (entries : List DirEntry)
    (h : dirNames entries ≠ []) :
    ∃ m, findLatestTrainingDir true entries = some m ∧
      m ∈ dirNames entries ∧ ∀ d ∈ dirNames entries, d ≤ m := by
  obtain ⟨m, hm, hmem, hmax⟩ := mergeSort_getLast_is_max (dirNames entries) h
  refine ⟨m, ?_, hmem, hmax⟩
  simp only [findLatestTrainingDir, if_true]
  exact hm

/-- C7 witness: the theorem at a listing with one stray file and one
training run. -/
theorem c7_witness :
    dirNames sampleEntries ≠ [] ∧
    (∃ m, findLatestTrainingDir true sampleEntries = some m ∧
      m ∈ dirNames sampleEntries ∧ ∀ d ∈ dirNames sampleEntries, d ≤ m) :=
  ⟨by simp [dirNames, sampleEntries],
    c7_selects_lexicographically_greatest sampleEntries
      (by simp [dirNames, sampleEntries])⟩

/-- C8 (confirmed): when ns-process-data exits non-zero, the
CalledProcessError raised at line 148 short-circuits the inner try:
neither ns-train nor ns-export is invoked, and the only terminal status
write attempted is failed. -/
theorem c8_preprocessing_failure_short_circuits (env : Env)
    (hdb : env.dbInit = true) (hbk : env.bucketInit = true)
    (h1 : env.downloadOk = true) (h2 : env.processExit ≠ 0) :
    (process_video_endpoint env validReq).2.trainInvoked = false ∧
    (process_video_endpoint env validReq).2.exportInvoked = false ∧
    (process_video_endpoint env validReq).2.writes.map Prod.fst = [Status.failed] ∧
    (process_video_endpoint env validReq).2.handledError =
      some (PyError.calledProcess env.processExit none) := by
  have hbody :
      (pipelineBody env startSt).1 =
        Except.error (PyError.calledProcess env.processExit none) ∧
      (pipelineBody env startSt).2.writes = [] ∧
      (pipelineBody env startSt).2.trainInvoked = false ∧
      (pipelineBody env startSt).2.exportInvoked = false := by
    refine ⟨?_, ?_, ?_, ?_⟩ <;> simp [pipelineBody, h1, h2, startSt, PipeSt.init]
  have heq : pipelineBody env startSt =
      (Except.error (PyError.calledProcess env.processExit none),
        (pipelineBody env startSt).2) :=
    Prod.ext hbody.1 rfl
  rw [endpoint_eq_of_body_error env hdb hbk heq]
  obtain ⟨hhw, _, hhe, hhtr, hhx, _, _, _⟩ :=
    handleBodyError_spec env (PyError.calledProcess env.processExit none)
      (pipelineBody env startSt).2
  refine ⟨?_, ?_, ?_, hhe⟩
  · rw [hhtr]
    exact hbody.2.2.1
  · rw [hhx]
    exact hbody.2.2.2
  · rw [hhw, hbody.2.1]
    rfl

/-- C8 witness: the theorem at the environment where ns-process-data
exits 1. -/
theorem c8_witness :
    envProcessFails.downloadOk = true ∧ envProcessFails.processExit ≠ 0 ∧
    (process_video_endpoint envProcessFails validReq).2.trainInvoked = false ∧
    (process_video_endpoint envProcessFails validReq).2.exportInvoked = false ∧
    (process_video_endpoint envProcessFails validReq).2.writes.map Prod.fst =
      [Status.failed] ∧
    (process_video_endpoint envProcessFails validReq).2.handledError =
      some (PyError.calledProcess envProcessFails.processExit none) :=
  ⟨rfl, by decide,
    c8_preprocessing_failure_short_circuits envProcessFails rfl rfl rfl (by decide)⟩

/-- C9 (confirmed): when ns-export exits zero but splat.ply is absent,
the existence check of line 188 raises FileNotFoundError before any
upload and before any complete write: no upload is invoked, no complete
status write is attempted, the only write attempted is failed, and the
handler returns HTTP 500 — never a silent success. -/
theorem c9_missing_artifact_fails_before_upload (env : Env)
    (hdb : env.dbInit = true) (hbk : env.bucketInit = true)
    (h1 : env.downloadOk = true) (h2 : env.processExit = 0) (h3 : env.trainExit = 0)
    (h4 : env.splatfactoDirExists = true) (h5 : dirNames env.splatfactoEntries ≠ [])
    (h6 : env.configExists = true) (h7 : env.exportExit = 0)
    (h8 : env.plyExists = false) :
    (process_video_endpoint env validReq).2.uploadInvoked = false ∧
    Status.complete ∉ (process_video_endpoint env validReq).2.writes.map Prod.fst ∧
    (process_video_endpoint env validReq).2.writes.map Prod.fst = [Status.failed] ∧
    (process_video_endpoint env validReq).2.handledError =
      some (PyError.fileNotFound "Output PLY file not found after export") ∧
    (process_video_endpoint env validReq).1.code = 500 := by
  obtain ⟨m, hfind0⟩ := findLatest_some_of_dirs env h4 h5
  have hbody :
      (pipelineBody env startSt).1 =
        Except.error (PyError.fileNotFound "Output PLY file not found after export") ∧
      (pipelineBody env startSt).2.writes = [] ∧
      (pipelineBody env startSt).2.uploadInvoked = false := by
    refine ⟨?_, ?_, ?_⟩ <;>
      simp [pipelineBody, h1, h2, h3, hfind0, h6, h7, h8, startSt, PipeSt.init]
  have heq : pipelineBody env startSt =
      (Except.error (PyError.fileNotFound "Output PLY file not found after export"),
        (pipelineBody env startSt).2) :=
    Prod.ext hbody.1 rfl
  rw [endpoint_eq_of_body_error env hdb hbk heq]
  obtain ⟨hhw, _, hhe, _, _, hhu, hcode, _⟩ :=
    handleBodyError_spec env (PyError.fileNotFound "Output PLY file not found after export")
      (pipelineBody env startSt).2
  have hwmap : (handleBodyError env
      (PyError.fileNotFound "Output PLY file not found after export")
      (pipelineBody env startSt).2).2.writes.map Prod.fst = [Status.failed] := by
    rw [hhw, hbody.2.1]
    rfl
  refine ⟨?_, ?_, hwmap, hhe, hcode⟩
  · rw [hhu]
    exact hbody.2.2
  · rw [hwmap]
    simp

/-- C9 witness: the theorem at the environment where the export stage
exits zero but splat.ply is missing. -/
theorem c9_witness :
    envPlyMissing.exportExit = 0 ∧ envPlyMissing.plyExists = false ∧
    (process_video_endpoint envPlyMissing validReq).2.uploadInvoked = false ∧
    Status.complete ∉ (process_video_endpoint envPlyMissing validReq).2.writes.map Prod.fst ∧
    (process_video_endpoint envPlyMissing validReq).2.writes.map Prod.fst =
      [Status.failed] ∧
    (process_video_endpoint envPlyMissing validReq).2.handledError =
      some (PyError.fileNotFound "Output PLY file not found after export") ∧
    (process_video_endpoint envPlyMissing validReq).1.code = 500 :=
  ⟨rfl, rfl,
    c9_missing_artifact_fails_before_upload envPlyMissing rfl rfl rfl rfl rfl rfl
      (by simp [dirNames, envPlyMissing, envAllOk]) rfl rfl rfl⟩

/-- C10 (confirmed): the health endpoint of line 95 returns HTTP 200 for
every request, with the firebase_initialized body flag reflecting
whether both Firebase handles were initialized; in particular it still
returns 200 when they were not, while the processing endpoint returns
HTTP 503 in that same state (lines 103-106). -/
theorem c10_health_200_process_503 (env : Env) (req : ReqJson) :
    health_check env =
      { code := 200, tag := RespTag.healthy (env.dbInit && env.bucketInit) } ∧
    (health_check { env with dbInit := false, bucketInit := false }).code = 200 ∧
    (health_check { env with dbInit := false, bucketInit := false }).tag =
      RespTag.healthy false ∧
    (process_video_endpoint { env with dbInit := false, bucketInit := false } req).1.code =
      503 :=
  ⟨rfl, rfl, rfl, rfl⟩

end NerfProc
